import Mathlib

/-!
# Verification of the grading tool's core logic

A shallow embedding of `grading_tool.py`: the grade classifier
(`assign_grade`), the data validator (`validate_data`), the boundary
validator (`validate_grade_boundaries`), the grade tally with the
pass/fail summary, and the size-capped URL download loop.

Modelling conventions:
* Python floats are idealised as exact rationals (`ℚ`).
* A cell of the marks column is `Option ℚ`; `none` stands for a missing
  value (`NaN`).  Python's `mark >= threshold` evaluates to `False` when
  `mark` is `NaN`, which the helper `geq` reproduces.
* Error and warning messages are the source's strings; numbers embedded in
  messages via Python's `:.2f` are rendered by `fmt2` (round half to even
  at two decimals on the absolute value, the sign printed separately, as
  Python's fixed-point formatting does).
* The boundary validator's messages interpolate raw float reprs; those
  errors are modelled structurally (`BoundaryError` keeps both grade names
  and both values) rather than as rendered strings.
* A dataframe is an association list of named columns; a column carries
  its pandas dtype-is-numeric flag and its cells.
-/

/-- The nine grade symbols.  `Am` is `A-`, `Bm` is `B-`, `Cm` is `C-`. -/
inductive Grade where
  | A | Am | B | Bm | C | Cm | D | E | F
deriving DecidableEq, Repr

/-- The eight grade-boundary sliders (minimum mark for each grade),
source lines 315-334. -/
structure GradeBoundaries where
  A : ℚ
  Am : ℚ
  B : ℚ
  Bm : ℚ
  C : ℚ
  Cm : ℚ
  D : ℚ
  E : ℚ
deriving DecidableEq, Repr

/-- The sliders' default values 90/80/70/60/50/40/30/20. -/
def defaultBoundaries : GradeBoundaries :=
  ⟨90, 80, 70, 60, 50, 40, 30, 20⟩

/-- Python's `mark >= threshold` on a possibly-missing mark: comparison
with `NaN` is `False`. -/
def geq (mark : Option ℚ) (t : ℚ) : Bool :=
  match mark with
  | some m => decide (t ≤ m)
  | none => false

/-- `assign_grade` (source lines 344-353): the eight-branch comparison
chain; the first match in the fixed order A, A-, B, B-, C, C-, D, E wins,
otherwise F.  The boundaries, captured from the enclosing scope in the
source, are an explicit argument here. -/
def assign_grade (b : GradeBoundaries) (mark : Option ℚ) : Grade :=
  if geq mark b.A then Grade.A
  else if geq mark b.Am then Grade.Am
  else if geq mark b.B then Grade.B
  else if geq mark b.Bm then Grade.Bm
  else if geq mark b.C then Grade.C
  else if geq mark b.Cm then Grade.Cm
  else if geq mark b.D then Grade.D
  else if geq mark b.E then Grade.E
  else Grade.F

/-- The ordered (label, threshold) table of the spec's description of the
classifier. -/
def boundaryPairs (b : GradeBoundaries) : List (Grade × ℚ) :=
  [(Grade.A, b.A), (Grade.Am, b.Am), (Grade.B, b.B), (Grade.Bm, b.Bm),
   (Grade.C, b.C), (Grade.Cm, b.Cm), (Grade.D, b.D), (Grade.E, b.E)]

/-- Modelled from the spec: iterate the (label, threshold) pairs once in
fixed descending order and return the first grade whose threshold the mark
meets or exceeds, `F` when none is met.  Stated from the spec's words, to
be compared with `assign_grade`. -/
def classifySpec (b : GradeBoundaries) (m : ℚ) : Grade :=
  match (boundaryPairs b).find? (fun p => decide (p.2 ≤ m)) with
  | some p => p.1
  | none => Grade.F

/-- Rank of a grade: `A` highest (8), `F` lowest (0). -/
def gradeRank : Grade → Nat
  | Grade.F => 0
  | Grade.E => 1
  | Grade.D => 2
  | Grade.Cm => 3
  | Grade.C => 4
  | Grade.Bm => 5
  | Grade.B => 6
  | Grade.Am => 7
  | Grade.A => 8

/-- Strictly descending boundaries: A > A- > B > B- > C > C- > D > E. -/
def StrictDesc (b : GradeBoundaries) : Prop :=
  b.Am < b.A ∧ b.B < b.Am ∧ b.Bm < b.B ∧ b.C < b.Bm ∧
  b.Cm < b.C ∧ b.D < b.Cm ∧ b.E < b.D

instance (b : GradeBoundaries) : Decidable (StrictDesc b) := by
  unfold StrictDesc
  infer_instance

/-- One ordering-violation error of `validate_grade_boundaries` (source
line 190): it names both grades and carries both boundary values. -/
structure BoundaryError where
  grade1 : String
  val1 : ℚ
  grade2 : String
  val2 : ℚ
deriving DecidableEq, Repr

/-- The ordered `boundary_list` of source lines 175-184. -/
def boundary_list (b : GradeBoundaries) : List (String × ℚ) :=
  [("A", b.A), ("A-", b.Am), ("B", b.B), ("B-", b.Bm),
   ("C", b.C), ("C-", b.Cm), ("D", b.D), ("E", b.E)]

/-- Body of the loop of source lines 186-190: a pair of adjacent entries
yields an error exactly when `current_val <= next_val`. -/
def pairError (p : (String × ℚ) × (String × ℚ)) : Option BoundaryError :=
  if p.1.2 ≤ p.2.2 then some ⟨p.1.1, p.1.2, p.2.1, p.2.2⟩ else none

/-- `validate_grade_boundaries` (source lines 172-192): scan the adjacent
pairs of `boundary_list` in order, collecting one error per violating
pair, without short-circuiting. -/
def validate_grade_boundaries (b : GradeBoundaries) : List BoundaryError :=
  ((boundary_list b).zip (boundary_list b).tail).filterMap pairError

/-- Render a two-digit decimal field, left-padded with a zero. -/
def twoDigits (n : Nat) : String := toString (n / 10) ++ toString (n % 10)

/-- Python's `f"{q:.2f}"` on the idealised rational: round the absolute
value to whole cents, half to even, and print the sign separately (so a
negative value rounding to zero prints as `-0.00`, as Python does).
Implemented on numerator and denominator with integer arithmetic:
`100*|q| = t/d`, quotient `f`, remainder `r`, and `r/d` compared with
`1/2` by comparing `2*r` with `d`. -/
def fmt2 (q : ℚ) : String :=
  let t : ℕ := 100 * q.num.natAbs
  let d : ℕ := q.den
  let f : ℕ := t / d
  let r : ℕ := t % d
  let cents : ℕ :=
    if 2 * r < d then f
    else if d < 2 * r then f + 1
    else if f % 2 = 0 then f else f + 1
  (if q.num < 0 then "-" else "") ++ toString (cents / 100) ++ "." ++ twoDigits (cents % 100)

/-- A named column of the loaded dataframe: pandas' per-column numeric
dtype flag (`pd.api.types.is_numeric_dtype`), and the cells, where `none`
is a missing value. -/
structure Column where
  isNumericDtype : Bool
  cells : List (Option ℚ)
deriving DecidableEq, Repr

/-- The loaded dataframe: named columns in order. -/
structure DataFrame where
  cols : List (String × Column)
deriving DecidableEq, Repr

/-- pandas `df.empty`: no columns, or columns of zero length. -/
def DataFrame.empty (df : DataFrame) : Bool :=
  match df.cols with
  | [] => true
  | c :: _ => c.2.cells.isEmpty

/-- pandas `Series.dropna()`: keep the non-missing cells. -/
def dropna (cells : List (Option ℚ)) : List ℚ := cells.filterMap id

/-- `validate_data` (source lines 141-170): returns `(errors, warnings)`.
An empty dataframe and a missing marks column each short-circuit with a
single error; otherwise a non-numeric dtype adds an error, an empty
`dropna` result adds an error, and out-of-range minima/maxima add
warnings carrying the value formatted with `:.2f`. -/
def validate_data (df : DataFrame) (marks_column : String) :
    List String × List String :=
  if df.empty then
    (["The file is empty. Please upload a file with data."], [])
  else
    match df.cols.find? (fun p => p.1 == marks_column) with
    | none => (["Column \x27" ++ marks_column ++ "\x27 not found in the file."], [])
    | some p =>
      let numErrors : List String :=
        if p.2.isNumericDtype then []
        else ["The \x27" ++ marks_column ++ "\x27 column must contain numeric values only."]
      match dropna p.2.cells with
      | [] =>
        (numErrors ++ ["No valid marks found in \x27" ++ marks_column ++ "\x27 column."], [])
      | x :: xs =>
        let mn := xs.foldl min x
        let mx := xs.foldl max x
        (numErrors,
          (if mn < 0 then
            ["Warning: Found negative marks (minimum: " ++ fmt2 mn ++ ")"] else []) ++
          (if 100 < mx then
            ["Warning: Found marks above 100 (maximum: " ++ fmt2 mx ++ ")"] else []))

/-- Source lines 336-355 in order: the boundary errors are computed (and
displayed), and then, regardless of their presence, `assign_grade` is
applied to every entry of the marks column to form the Grade column. -/
def recompute (b : GradeBoundaries) (marks : List (Option ℚ)) :
    List BoundaryError × List Grade :=
  let boundary_errors := validate_grade_boundaries b
  (boundary_errors, marks.map (assign_grade b))

/-- The fixed reindexing order of the grade tally (source line 463). -/
def gradeOrderList : List Grade :=
  [Grade.A, Grade.Am, Grade.B, Grade.Bm, Grade.C, Grade.Cm, Grade.D, Grade.E, Grade.F]

/-- Number of rows carrying grade `g`. -/
def countGrade (grades : List Grade) (g : Grade) : ℕ :=
  (grades.filter (fun x => x == g)).length

/-- `value_counts().reindex(order, fill_value=0)` (source line 463): one
row per grade of the fixed order, zero-filled. -/
def grade_counts (grades : List Grade) : List (Grade × ℕ) :=
  gradeOrderList.map (fun g => (g, countGrade grades g))

/-- `.round(2)`: round to two decimal places, half to even, as numpy
does.  Implemented on numerator and denominator: `100*q = t/d` with floor
quotient `f` and remainder `r ∈ [0, d)`; `r/d` is compared with `1/2` by
comparing `2*r` with `d`. -/
def round2 (q : ℚ) : ℚ :=
  let t : ℤ := 100 * q.num
  let d : ℤ := (q.den : ℤ)
  let f : ℤ := t.fdiv d
  let r : ℤ := t - f * d
  let cents : ℤ :=
    if 2 * r < d then f
    else if d < 2 * r then f + 1
    else if f % 2 = 0 then f else f + 1
  mkRat cents 100

/-- The Percentage column of the grade distribution table (source line
471): count over total rows times 100, rounded to two decimals. -/
def grade_percentages (grades : List Grade) : List (Grade × ℚ) :=
  gradeOrderList.map
    (fun g => (g, round2 ((countGrade grades g : ℚ) / (grades.length : ℚ) * 100)))

/-- `pass_count` (source line 477): rows whose grade is not F. -/
def pass_count (grades : List Grade) : ℕ :=
  (grades.filter (fun g => g != Grade.F)).length

/-- `fail_count` (source line 478): rows whose grade is F. -/
def fail_count (grades : List Grade) : ℕ :=
  (grades.filter (fun g => g == Grade.F)).length

/-- `MAX_FILE_SIZE` (source line 51): the 50 MB cap in bytes. -/
def MAX_FILE_SIZE : ℕ := 50 * 1024 * 1024

/-- The message of the exception raised when the cap is exceeded (source
line 96). -/
def sizeLimitError : String :=
  "File exceeds 50 MB size limit. Please use a smaller file or the \x27Upload File\x27 option."

/-- The streaming loop of `load_file_from_url` (source lines 90-97): for
each chunk (falsy, i.e. empty, chunks are skipped), add its length to the
byte counter, raise once the counter exceeds `MAX_FILE_SIZE`, otherwise
append the chunk to the accumulated content. -/
def readContent : List (List ℕ) → ℕ → List ℕ → Except String (List ℕ)
  | [], _, content => Except.ok content
  | chunk :: rest, downloaded, content =>
    if chunk.isEmpty then readContent rest downloaded content
    else
      let downloaded' := downloaded + chunk.length
      if downloaded' > MAX_FILE_SIZE then Except.error sizeLimitError
      else readContent rest downloaded' (content ++ chunk)

/-- Run the download loop from the initial state `content_bytes = b''`,
`downloaded_size = 0`. -/
def load_content (chunks : List (List ℕ)) : Except String (List ℕ) :=
  readContent chunks 0 []

/-- `filterMap` over a cons whose head is a guarded `some`. -/
lemma fm_cons {α β : Type} (f : α → Option β) (x : α) (l : List α)
    (c : Prop) [Decidable c] (e : β) (h : f x = if c then some e else none) :
    List.filterMap f (x :: l) = (if c then [e] else []) ++ List.filterMap f l := by
  rw [List.filterMap_cons, h]
  split_ifs <;> simp

/-- `validate_grade_boundaries` written out: one guarded singleton per
adjacent pair, in the fixed order of `boundary_list`. -/
lemma validate_eq_explicit (b : GradeBoundaries) :
    validate_grade_boundaries b =
      (if b.A ≤ b.Am then [⟨"A", b.A, "A-", b.Am⟩] else []) ++
      (if b.Am ≤ b.B then [⟨"A-", b.Am, "B", b.B⟩] else []) ++
      (if b.B ≤ b.Bm then [⟨"B", b.B, "B-", b.Bm⟩] else []) ++
      (if b.Bm ≤ b.C then [⟨"B-", b.Bm, "C", b.C⟩] else []) ++
      (if b.C ≤ b.Cm then [⟨"C", b.C, "C-", b.Cm⟩] else []) ++
      (if b.Cm ≤ b.D then [⟨"C-", b.Cm, "D", b.D⟩] else []) ++
      (if b.D ≤ b.E then [⟨"D", b.D, "E", b.E⟩] else []) := by
  show List.filterMap pairError
      [(("A", b.A), ("A-", b.Am)), (("A-", b.Am), ("B", b.B)),
       (("B", b.B), ("B-", b.Bm)), (("B-", b.Bm), ("C", b.C)),
       (("C", b.C), ("C-", b.Cm)), (("C-", b.Cm), ("D", b.D)),
       (("D", b.D), ("E", b.E))] = _
  rw [fm_cons pairError (("A", b.A), ("A-", b.Am)) _ (b.A ≤ b.Am) ⟨"A", b.A, "A-", b.Am⟩ rfl,
    fm_cons pairError (("A-", b.Am), ("B", b.B)) _ (b.Am ≤ b.B) ⟨"A-", b.Am, "B", b.B⟩ rfl,
    fm_cons pairError (("B", b.B), ("B-", b.Bm)) _ (b.B ≤ b.Bm) ⟨"B", b.B, "B-", b.Bm⟩ rfl,
    fm_cons pairError (("B-", b.Bm), ("C", b.C)) _ (b.Bm ≤ b.C) ⟨"B-", b.Bm, "C", b.C⟩ rfl,
    fm_cons pairError (("C", b.C), ("C-", b.Cm)) _ (b.C ≤ b.Cm) ⟨"C", b.C, "C-", b.Cm⟩ rfl,
    fm_cons pairError (("C-", b.Cm), ("D", b.D)) _ (b.Cm ≤ b.D) ⟨"C-", b.Cm, "D", b.D⟩ rfl,
    fm_cons pairError (("D", b.D), ("E", b.E)) _ (b.D ≤ b.E) ⟨"D", b.D, "E", b.E⟩ rfl,
    List.filterMap_nil, List.append_nil]
  simp [List.append_assoc]

/-- Rounding zero gives zero. -/
lemma round2_zero : round2 0 = 0 := by decide

/-- A grade absent from the rows has count zero. -/
lemma countGrade_eq_zero {grades : List Grade} {g : Grade} (hg : g ∉ grades) :
    countGrade grades g = 0 := by
  unfold countGrade
  rw [List.length_eq_zero, List.filter_eq_nil_iff]
  intro a ha
  simp only [beq_iff_eq]
  intro hcontra
  exact hg (hcontra ▸ ha)

/-- Every grade symbol occurs in the fixed tally order. -/
lemma mem_gradeOrderList (g : Grade) : g ∈ gradeOrderList := by
  cases g <;> decide

/-- Invariant proof for the download loop: entered with a byte counter
equal to the accumulated length and within the cap, it returns the fully
accumulated content when the total stays within the cap, and the
size-limit error as soon as the counter would exceed it. -/
lemma readContent_spec (chunks : List (List ℕ)) :
    ∀ acc : List ℕ, acc.length ≤ MAX_FILE_SIZE →
      (acc.length + chunks.flatten.length ≤ MAX_FILE_SIZE →
        readContent chunks acc.length acc = .ok (acc ++ chunks.flatten)) ∧
      (MAX_FILE_SIZE < acc.length + chunks.flatten.length →
        readContent chunks acc.length acc = .error sizeLimitError) := by
  induction chunks with
  | nil =>
    intro acc hacc
    constructor
    · intro _
      simp [readContent]
    · intro hlt
      simp only [List.flatten_nil, List.length_nil, Nat.add_zero] at hlt
      omega
  | cons c rest ih =>
    intro acc hacc
    by_cases hc : c.isEmpty
    · have hcnil : c = [] := List.isEmpty_iff.mp hc
      subst hcnil
      simpa [readContent] using ih acc hacc
    · constructor
      · intro hle
        have hlen : acc.length + c.length ≤ MAX_FILE_SIZE := by
          simp only [List.flatten_cons, List.length_append] at hle
          omega
        have step : readContent (c :: rest) acc.length acc =
            readContent rest (acc.length + c.length) (acc ++ c) := by
          simp [readContent, hc]
          omega
        rw [step, show acc.length + c.length = (acc ++ c).length by
          simp [List.length_append]]
        have := (ih (acc ++ c) (by simp [List.length_append]; omega)).1 (by
          simp only [List.flatten_cons, List.length_append] at hle ⊢
          omega)
        rw [this]
        simp [List.append_assoc]
      · intro hlt
        by_cases hover : acc.length + c.length > MAX_FILE_SIZE
        · simp [readContent, hc, hover]
        · have step : readContent (c :: rest) acc.length acc =
              readContent rest (acc.length + c.length) (acc ++ c) := by
            simp [readContent, hc]
            omega
          rw [step, show acc.length + c.length = (acc ++ c).length by
            simp [List.length_append]]
          exact (ih (acc ++ c) (by simp [List.length_append]; omega)).2 (by
            simp only [List.flatten_cons, List.length_append] at hlt ⊢
            omega)

/-- Claim C1: for every boundaries assignment (no ordering assumed) and
every real mark, `assign_grade` totally returns one of the nine grade
symbols, namely the first grade in the fixed order A, A-, B, B-, C, C-,
D, E whose threshold the mark meets or exceeds, and F when none is met —
also for marks outside [0, 100]. -/
theorem assign_grade_is_first_match (b : GradeBoundaries) (m : ℚ) :
    assign_grade b (some m) = classifySpec b m := by
  unfold assign_grade classifySpec boundaryPairs geq
  by_cases h1 : b.A ≤ m
  · simp [List.find?, h1]
  · by_cases h2 : b.Am ≤ m
    · simp [List.find?, h1, h2]
    · by_cases h3 : b.B ≤ m
      · simp [List.find?, h1, h2, h3]
      · by_cases h4 : b.Bm ≤ m
        · simp [List.find?, h1, h2, h3, h4]
        · by_cases h5 : b.C ≤ m
          · simp [List.find?, h1, h2, h3, h4, h5]
          · by_cases h6 : b.Cm ≤ m
            · simp [List.find?, h1, h2, h3, h4, h5, h6]
            · by_cases h7 : b.D ≤ m
              · simp [List.find?, h1, h2, h3, h4, h5, h6, h7]
              · by_cases h8 : b.E ≤ m
                · simp [List.find?, h1, h2, h3, h4, h5, h6, h7, h8]
                · simp [List.find?, h1, h2, h3, h4, h5, h6, h7, h8]

set_option maxHeartbeats 2000000 in
/-- Claim C2: with strictly descending boundaries, a higher or equal mark
never earns a strictly lower grade: the classifier is monotone in the
mark under the rank order A > A- > B > B- > C > C- > D > E > F. -/
theorem assign_grade_monotone (b : GradeBoundaries) (_hb : StrictDesc b)
    (m1 m2 : ℚ) (h : m1 ≤ m2) :
    gradeRank (assign_grade b (some m1)) ≤ gradeRank (assign_grade b (some m2)) := by
  unfold assign_grade geq
  split_ifs <;> simp_all [gradeRank, not_le] <;> linarith

/-- Witness for `assign_grade_monotone` at the default boundaries and
marks 75 ≤ 85. -/
theorem assign_grade_monotone_witness :
    StrictDesc defaultBoundaries ∧ (75 : ℚ) ≤ 85 ∧
    gradeRank (assign_grade defaultBoundaries (some 75)) ≤
      gradeRank (assign_grade defaultBoundaries (some 85)) :=
  ⟨by decide, by norm_num,
    assign_grade_monotone defaultBoundaries (by decide) 75 85 (by norm_num)⟩

set_option maxHeartbeats 2000000 in
/-- Claim C3: with strictly descending boundaries, a mark exactly equal
to a named threshold earns that grade (boundary inclusivity), for each of
the eight named thresholds. -/
theorem assign_grade_boundary_inclusive (b : GradeBoundaries) (hb : StrictDesc b) :
    assign_grade b (some b.A) = Grade.A ∧
    assign_grade b (some b.Am) = Grade.Am ∧
    assign_grade b (some b.B) = Grade.B ∧
    assign_grade b (some b.Bm) = Grade.Bm ∧
    assign_grade b (some b.C) = Grade.C ∧
    assign_grade b (some b.Cm) = Grade.Cm ∧
    assign_grade b (some b.D) = Grade.D ∧
    assign_grade b (some b.E) = Grade.E := by
  obtain ⟨h1, h2, h3, h4, h5, h6, h7⟩ := hb
  unfold assign_grade geq
  refine ⟨?_, ?_, ?_, ?_, ?_, ?_, ?_, ?_⟩ <;>
    split_ifs <;> simp_all [not_le] <;> linarith

/-- Witness for `assign_grade_boundary_inclusive` at the default
boundaries. -/
theorem assign_grade_boundary_inclusive_witness :
    StrictDesc defaultBoundaries ∧
    assign_grade defaultBoundaries (some defaultBoundaries.B) = Grade.B :=
  ⟨by decide,
    (assign_grade_boundary_inclusive defaultBoundaries (by decide)).2.2.1⟩

/-- Claim C4: the boundary validator returns no errors exactly when the
eight thresholds are strictly descending; otherwise it returns exactly
one error per violating adjacent pair (ties included), in the fixed pair
order, each error naming both grades and carrying both values, without
short-circuiting; with all eight thresholds equal it reports seven
errors, one per adjacent pair. -/
theorem validate_grade_boundaries_spec :
    (∀ b, validate_grade_boundaries b = [] ↔ StrictDesc b) ∧
    (∀ b, validate_grade_boundaries b =
      (if b.A ≤ b.Am then [⟨"A", b.A, "A-", b.Am⟩] else []) ++
      (if b.Am ≤ b.B then [⟨"A-", b.Am, "B", b.B⟩] else []) ++
      (if b.B ≤ b.Bm then [⟨"B", b.B, "B-", b.Bm⟩] else []) ++
      (if b.Bm ≤ b.C then [⟨"B-", b.Bm, "C", b.C⟩] else []) ++
      (if b.C ≤ b.Cm then [⟨"C", b.C, "C-", b.Cm⟩] else []) ++
      (if b.Cm ≤ b.D then [⟨"C-", b.Cm, "D", b.D⟩] else []) ++
      (if b.D ≤ b.E then [⟨"D", b.D, "E", b.E⟩] else [])) ∧
    (∀ q : ℚ, (validate_grade_boundaries ⟨q, q, q, q, q, q, q, q⟩).length = 7) := by
  refine ⟨?_, validate_eq_explicit, ?_⟩
  · intro b
    rw [validate_eq_explicit b]
    simp [List.append_eq_nil, ite_eq_right_iff, StrictDesc, not_le, and_assoc]
  · intro q
    rw [validate_eq_explicit ⟨q, q, q, q, q, q, q, q⟩]
    simp

/-- Claim C5: classification is applied to every row regardless of the
boundary validator's outcome: even with a non-empty boundary-error list,
the Grade column is still `assign_grade` mapped over the marks column. -/
theorem classification_not_blocked (b : GradeBoundaries) (marks : List (Option ℚ))
    (_h : validate_grade_boundaries b ≠ []) :
    (recompute b marks).1 = validate_grade_boundaries b ∧
    (recompute b marks).2 = marks.map (assign_grade b) :=
  ⟨rfl, rfl⟩

/-- Witness for `classification_not_blocked`: all-equal boundaries produce
errors, yet grading proceeds (95 earns A, a missing mark earns F). -/
theorem classification_not_blocked_witness :
    validate_grade_boundaries ⟨50, 50, 50, 50, 50, 50, 50, 50⟩ ≠ [] ∧
    (recompute ⟨50, 50, 50, 50, 50, 50, 50, 50⟩ [some 95, none]).2 =
      [some 95, none].map (assign_grade ⟨50, 50, 50, 50, 50, 50, 50, 50⟩) ∧
    (recompute ⟨50, 50, 50, 50, 50, 50, 50, 50⟩ [some 95, none]).2 =
      [Grade.A, Grade.F] :=
  ⟨by decide,
   (classification_not_blocked ⟨50, 50, 50, 50, 50, 50, 50, 50⟩ [some 95, none]
     (by decide)).2,
   by decide⟩

/-- Claim C6: the data validator short-circuits: an empty dataset gives
exactly one error and no warnings whatever the column name; a non-empty
dataset with a marks-column name not among its columns gives exactly the
one column-not-found error and no warnings. -/
theorem validate_data_short_circuits :
    (∀ (df : DataFrame) (c : String), df.empty = true →
      validate_data df c = (["The file is empty. Please upload a file with data."], [])) ∧
    (∀ (df : DataFrame) (c : String), df.empty = false →
      c ∉ df.cols.map Prod.fst →
      validate_data df c = (["Column \x27" ++ c ++ "\x27 not found in the file."], [])) := by
  constructor
  · intro df c h
    simp [validate_data, h]
  · intro df c h hmem
    have hfind : df.cols.find? (fun p => p.1 == c) = none := by
      rw [List.find?_eq_none]
      intro p hp
      simp only [beq_iff_eq]
      intro hcontra
      exact hmem (hcontra ▸ List.mem_map_of_mem Prod.fst hp)
    simp [validate_data, h, hfind]

/-- Witness for `validate_data_short_circuits`: the empty dataframe, and
a one-column dataframe asked about an absent column. -/
theorem validate_data_short_circuits_witness :
    validate_data ⟨[]⟩ "Marks" =
      (["The file is empty. Please upload a file with data."], []) ∧
    validate_data ⟨[("Marks", ⟨true, [some 50]⟩)]⟩ "Score" =
      (["Column \x27Score\x27 not found in the file."], []) :=
  ⟨validate_data_short_circuits.1 ⟨[]⟩ "Marks" rfl,
   validate_data_short_circuits.2 ⟨[("Marks", ⟨true, [some 50]⟩)]⟩ "Score"
     (by decide) (by decide)⟩

/-- Claim C7: on a non-empty dataset whose numeric marks column has at
least one non-missing value, the warnings are exactly: one negative-marks
warning carrying the minimum formatted to two decimals when the minimum
is below zero, followed by one above-100 warning carrying the maximum
formatted to two decimals when the maximum exceeds 100. -/
theorem validate_data_range_warnings (df : DataFrame) (c nm : String) (col : Column)
    (x : ℚ) (xs : List ℚ)
    (hne : df.empty = false)
    (hfind : df.cols.find? (fun p => p.1 == c) = some (nm, col))
    (hnum : col.isNumericDtype = true)
    (hdrop : dropna col.cells = x :: xs) :
    validate_data df c =
      ([],
        (if xs.foldl min x < 0 then
          ["Warning: Found negative marks (minimum: " ++ fmt2 (xs.foldl min x) ++ ")"]
        else []) ++
        (if 100 < xs.foldl max x then
          ["Warning: Found marks above 100 (maximum: " ++ fmt2 (xs.foldl max x) ++ ")"]
        else [])) := by
  simp [validate_data, hne, hfind, hnum, hdrop]

/-- Witness for `validate_data_range_warnings`: a column with minimum -5
and maximum 95 yields exactly one warning citing "-5.00" and no maximum
warning. -/
theorem validate_data_range_warnings_witness :
    validate_data ⟨[("Marks", ⟨true, [some 95, some (-5), none]⟩)]⟩ "Marks" =
      ([], ["Warning: Found negative marks (minimum: -5.00)"]) := by
  have h := validate_data_range_warnings
    ⟨[("Marks", ⟨true, [some 95, some (-5), none]⟩)]⟩ "Marks" "Marks"
    ⟨true, [some 95, some (-5), none]⟩ 95 [-5] rfl rfl rfl rfl
  rw [h]
  decide

/-- Claim C8: the grade tally has a row for every grade of the fixed
ordered set, with count 0 and percentage 0 for grades with no members;
percentages are count over total rows times 100 rounded to two decimals;
the pass/fail summary counts F rows as fail and all other rows as pass. -/
theorem grade_summary_spec (grades : List Grade) (_h : grades ≠ []) :
    (grade_counts grades).map Prod.fst = gradeOrderList ∧
    (∀ g : Grade, g ∉ grades →
      (g, 0) ∈ grade_counts grades ∧ (g, 0) ∈ grade_percentages grades) ∧
    grade_percentages grades =
      gradeOrderList.map
        (fun g => (g, round2 ((countGrade grades g : ℚ) / (grades.length : ℚ) * 100))) ∧
    fail_count grades = countGrade grades Grade.F ∧
    pass_count grades + fail_count grades = grades.length := by
  refine ⟨?_, ?_, rfl, rfl, ?_⟩
  · rfl
  · intro g hg
    constructor
    · unfold grade_counts
      exact List.mem_map.mpr ⟨g, mem_gradeOrderList g, by simp [countGrade_eq_zero hg]⟩
    · unfold grade_percentages
      exact List.mem_map.mpr
        ⟨g, mem_gradeOrderList g, by simp [countGrade_eq_zero hg, round2_zero]⟩
  · have := List.length_eq_length_filter_add (l := grades) (fun g => g == Grade.F)
    unfold pass_count fail_count
    simp only [bne] at *
    omega

/-- Witness for `grade_summary_spec` over the grades [A, B, B, F]: grade
D gets a zero-filled row in counts and percentages, one row fails, and
pass plus fail accounts for all four rows. -/
theorem grade_summary_spec_witness :
    ([Grade.A, Grade.B, Grade.B, Grade.F] : List Grade) ≠ [] ∧
    Grade.D ∉ ([Grade.A, Grade.B, Grade.B, Grade.F] : List Grade) ∧
    (Grade.D, 0) ∈ grade_counts [Grade.A, Grade.B, Grade.B, Grade.F] ∧
    (Grade.D, 0) ∈ grade_percentages [Grade.A, Grade.B, Grade.B, Grade.F] ∧
    fail_count [Grade.A, Grade.B, Grade.B, Grade.F] = 1 ∧
    pass_count [Grade.A, Grade.B, Grade.B, Grade.F] +
      fail_count [Grade.A, Grade.B, Grade.B, Grade.F] = 4 :=
  ⟨by decide, by decide,
   ((grade_summary_spec _ (by decide)).2.1 Grade.D (by decide)).1,
   ((grade_summary_spec _ (by decide)).2.1 Grade.D (by decide)).2,
   by decide, by decide⟩

/-- Claim C9: the download loop accumulates streamed chunk sizes and
returns the size-limit error as soon as the byte count exceeds the 50 MB
cap — it succeeds with the complete concatenated content exactly when the
total stays within the cap, fails with the size-limit error exactly when
it does not, and never returns a truncated or partial result. -/
theorem load_content_spec (chunks : List (List ℕ)) :
    (load_content chunks = .ok chunks.flatten ↔
      chunks.flatten.length ≤ MAX_FILE_SIZE) ∧
    (load_content chunks = .error sizeLimitError ↔
      MAX_FILE_SIZE < chunks.flatten.length) ∧
    (∀ content : List ℕ, load_content chunks = .ok content →
      content = chunks.flatten) := by
  have h := readContent_spec chunks [] (by simp [MAX_FILE_SIZE])
  simp only [List.length_nil, List.nil_append] at h
  have hload : ∀ r, load_content chunks = r ↔ readContent chunks 0 [] = r :=
    fun r => Iff.rfl
  refine ⟨⟨?_, ?_⟩, ⟨?_, ?_⟩, ?_⟩
  · intro hok
    by_contra hgt
    push_neg at hgt
    have := h.2 (by omega)
    rw [hload] at hok
    rw [hok] at this
    exact Except.noConfusion this
  · intro hle
    rw [hload]
    exact h.1 (by omega)
  · intro herr
    by_contra hle
    push_neg at hle
    have := h.1 (by omega)
    rw [hload] at herr
    rw [herr] at this
    exact Except.noConfusion this
  · intro hlt
    rw [hload]
    exact h.2 (by omega)
  · intro content hok
    rcases le_or_lt chunks.flatten.length MAX_FILE_SIZE with hle | hlt
    · have := h.1 (by omega)
      rw [hload] at hok
      rw [hok] at this
      exact Except.ok.inj this
    · have := h.2 (by omega)
      rw [hload] at hok
      rw [hok] at this
      exact Except.noConfusion this

/-- Witness for `load_content_spec`: two small chunks are fully
concatenated, and the ok-result is exactly the flattened stream. -/
theorem load_content_spec_witness :
    load_content [[1, 2], [3]] = .ok ([[1, 2], [3]] : List (List ℕ)).flatten ∧
    ([1, 2, 3] : List ℕ) = ([[1, 2], [3]] : List (List ℕ)).flatten :=
  have hok : load_content [[1, 2], [3]] = .ok ([[1, 2], [3]] : List (List ℕ)).flatten :=
    (load_content_spec [[1, 2], [3]]).1.mpr (by decide)
  ⟨hok, (load_content_spec [[1, 2], [3]]).2.2 [1, 2, 3] (by exact hok)⟩

/-- Claim C10: every one of the eight comparisons is false on a missing
(NaN) mark, so `assign_grade` grades it F, and since the pipeline maps
`assign_grade` over the marks column without dropping missing values,
each missing-mark row lands among the F rows the fail tally counts. -/
theorem missing_marks_graded_F (b : GradeBoundaries) :
    assign_grade b none = Grade.F ∧
    ∀ marks : List (Option ℚ),
      (marks.filter (fun m => m.isNone)).length ≤
        fail_count ((recompute b marks).2) := by
  refine ⟨rfl, ?_⟩
  intro marks
  simp only [recompute]
  induction marks with
  | nil => simp [fail_count]
  | cons m t ih =>
    cases m with
    | none =>
      have hF : assign_grade b none = Grade.F := rfl
      simp only [List.map_cons, List.filter_cons, hF, fail_count] at ih ⊢
      simp only [Option.isNone_none, if_pos, List.length_cons]
      simp only [List.filter_cons, beq_self_eq_true, if_pos, List.length_cons]
      omega
    | some v =>
      simp only [List.map_cons, List.filter_cons, fail_count] at ih ⊢
      simp only [Option.isNone_some, Bool.false_eq_true, if_neg, not_false_iff]
      cases hg : (assign_grade b (some v) == Grade.F) <;> simp [hg] <;> omega
